import Mathlib

/-!
Shallow embedding of the custom-domain connection orchestrator of the
site-replicator repository: the Mongoose `Domain` model (models/Domain.js),
the `DomainService` (services/domain-service.js), the domain routes
(routes of the API: add-domain, get, verify, delete, renew-ssl,
pending/check) and the `CronService` (services/cron-service.js).

External effects (DNS resolution, nginx file writes / test / reload,
certbot invocations) are modelled by an environment `ExtEnv` giving each
external call a deterministic outcome, and each service function also
returns the list of external calls it performed.  Timestamps are `Nat`.
-/

namespace SiteReplicator

/-- Outcome of `sudo certbot renew --cert-name d` as observed by
`renewSSLCertificates`: stdout contains "not yet due for renewal",
stdout contains "Successfully deployed certificate", some other output,
or the command threw. -/
inductive RenewOutcome where
  | notYetDue
  | deployed
  | otherOutput
  | execError
deriving Repr, DecidableEq

/-- One external call performed by the services (network / filesystem /
child-process effects). -/
inductive ExtCall where
  | dnsResolve (domain : String)
  | writeConfig (domain : String)
  | symlinkConfig (domain : String)
  | nginxTest
  | nginxReload
  | certbotIssue (domain : String)
  | certbotExpiry (domain : String)
  | certbotRenew (domain : String)
  | certbotDelete (domain : String)
  | removeConfigFiles (domain : String)
deriving Repr, DecidableEq

/-- Deterministic oracle for the outcomes of external calls. -/
structure ExtEnv where
  /-- `dns.resolve4` on the cleaned domain succeeds and the A records
  include `SERVER_IP` (a resolution failure counts as `false`). -/
  dnsOk : String → Bool
  /-- `fs.writeFile` of the nginx config succeeds. -/
  writeOk : Bool
  /-- `fs.symlink` into sites-enabled succeeds. -/
  symlinkOk : Bool
  /-- `sudo nginx -t` passes. -/
  nginxTestOk : Bool
  /-- `sudo nginx -s reload` succeeds. -/
  nginxReloadOk : Bool
  /-- certbot output contains "Successfully deployed certificate" or
  "Certificate not yet due for renewal". -/
  certIssueOk : String → Bool
  /-- parsed `Expiry Date:` from `sudo certbot certificates -d d`,
  `none` when absent or the command fails. -/
  certExpiry : String → Option Nat
  /-- outcome of `sudo certbot renew --cert-name d`. -/
  renewOutcome : String → RenewOutcome

/-- A document of the `domains` collection (models/Domain.js schema,
with the fields the orchestration logic reads and writes). -/
structure DomainRecord where
  domain : String
  siteSlug : String
  connected : Bool := false
  ssl : Bool := false
  dnsVerified : Bool := false
  nginxConfigured : Bool := false
  sslExpiry : Option Nat := none
  lastChecked : Nat := 0
  createdAt : Nat := 0
  updatedAt : Nat := 0
  errorMessage : Option String := none
  retryCount : Nat := 0
deriving Repr, DecidableEq

/-- The record store (the `domains` collection). -/
abbrev Store := List DomainRecord

/-- `domain.toLowerCase()` (character-wise ASCII lowercasing). -/
def strToLower (s : String) : String :=
  String.mk (s.data.map Char.toLower)

/-- `domain.replace(/^www\./, '')`. -/
def stripWww (s : String) : String :=
  if s.data.take 4 = "www.".data then String.mk (s.data.drop 4) else s

/-- `domain.toLowerCase().replace(/^www\./, '')` — the normalization the
routes apply to every incoming domain parameter. -/
def normalizeDomain (s : String) : String :=
  stripWww (strToLower s)

/-- Split a character list at every occurrence of `c`
(`String.prototype.split` on a one-character separator). -/
def splitOnChar (c : Char) : List Char → List (List Char)
  | [] => [[]]
  | x :: xs =>
    let rest := splitOnChar c xs
    if x = c then [] :: rest
    else
      match rest with
      | [] => [[x]]
      | y :: ys => (x :: y) :: ys

/-- `s.split('.')`. -/
def splitDots (s : String) : List String :=
  (splitOnChar '.' s.data).map String.mk

/-- `Domain.findOne({ domain: d })`. -/
def findDomain (store : Store) (d : String) : Option DomainRecord :=
  store.find? (fun r => r.domain == d)

/-- `domainRecord.save()` for an existing record: replace the record with
the same domain key. -/
def updateStore (store : Store) (r : DomainRecord) : Store :=
  store.map (fun x => if x.domain == r.domain then r else x)

/-- `Domain.deleteOne({ domain: d })`. -/
def deleteDomain (store : Store) (d : String) : Store :=
  store.filter (fun r => r.domain != d)

/-- ASCII `[a-zA-Z0-9]`. -/
def isAlnumChar (c : Char) : Bool :=
  c.isAlpha || c.isDigit

/-- ASCII `[a-zA-Z0-9-]`. -/
def isLabelChar (c : Char) : Bool :=
  isAlnumChar c || c == '-'

/-- Matches `[a-zA-Z0-9][a-zA-Z0-9-]{0,61}[a-zA-Z0-9]?`: non-empty, at
most 63 chars, first char alphanumeric, every char in `[a-zA-Z0-9-]`,
and at 63 chars the last must be alphanumeric. -/
def firstLabelOk (s : String) : Bool :=
  match s.toList with
  | [] => false
  | c :: rest =>
    isAlnumChar c && rest.all isLabelChar && (c :: rest).length ≤ 63 &&
      ((c :: rest).length ≤ 62 ||
        (match (c :: rest).getLast? with
         | some l => isAlnumChar l
         | none => false))

/-- Matches `[a-zA-Z]{2,}`. -/
def alphaPartOk (s : String) : Bool :=
  s.length ≥ 2 && s.toList.all Char.isAlpha

/-- The schema's domain validator
`/^[a-zA-Z0-9][a-zA-Z0-9-]{0,61}[a-zA-Z0-9]?\.([a-zA-Z]{2,}|[a-zA-Z]{2,}\.[a-zA-Z]{2,})$/`:
a first label, a dot, then one or two alphabetic parts of length ≥ 2. -/
def validDomainString (s : String) : Bool :=
  match splitDots s with
  | [l, t] => firstLabelOk l && alphaPartOk t
  | [l, t1, t2] => firstLabelOk l && alphaPartOk t1 && alphaPartOk t2
  | _ => false

/-- The schema's siteSlug validator `/^[a-zA-Z0-9_-]+$/`. -/
def validSiteSlug (s : String) : Bool :=
  !s.data.isEmpty && s.toList.all (fun c => isAlnumChar c || c == '_' || c == '-')

/-- `DomainService.isApexDomain`: a two-label domain counts as apex. -/
def isApexDomain (domain : String) : Bool :=
  (splitDots domain).length == 2

/-- `DomainService.verifyDNS`: strip a `www.` prefix, resolve A records,
report whether `SERVER_IP` is among them; any resolution failure is a
negative result. -/
def verifyDNS (env : ExtEnv) (domain : String) : Bool × List ExtCall :=
  let cleanDomain := stripWww domain
  (env.dnsOk cleanDomain, [ExtCall.dnsResolve cleanDomain])

/-- `DomainService.createNginxConfig`: write the config file, re-create
the sites-enabled symlink, run `nginx -t`, and only after a passing test
reload nginx; any thrown step makes the whole operation return `false`. -/
def createNginxConfig (env : ExtEnv) (domain : String) (_siteSlug : String) :
    Bool × List ExtCall :=
  if !env.writeOk then
    (false, [ExtCall.writeConfig domain])
  else if !env.symlinkOk then
    (false, [ExtCall.writeConfig domain, ExtCall.symlinkConfig domain])
  else if !env.nginxTestOk then
    (false, [ExtCall.writeConfig domain, ExtCall.symlinkConfig domain,
             ExtCall.nginxTest])
  else if !env.nginxReloadOk then
    (false, [ExtCall.writeConfig domain, ExtCall.symlinkConfig domain,
             ExtCall.nginxTest, ExtCall.nginxReload])
  else
    (true, [ExtCall.writeConfig domain, ExtCall.symlinkConfig domain,
            ExtCall.nginxTest, ExtCall.nginxReload])

/-- `DomainService.getCertificateExpiry`. -/
def getCertificateExpiry (env : ExtEnv) (domain : String) :
    Option Nat × List ExtCall :=
  (env.certExpiry domain, [ExtCall.certbotExpiry domain])

/-- `DomainService.issueSSLCertificate`: run certbot; success iff the
output reports a deployed certificate or one not yet due for renewal, in
which case the expiry is also queried. -/
def issueSSLCertificate (env : ExtEnv) (domain : String) :
    Bool × List ExtCall :=
  if env.certIssueOk domain then
    (true, [ExtCall.certbotIssue domain, ExtCall.certbotExpiry domain])
  else
    (false, [ExtCall.certbotIssue domain])

/-- `DomainService.removeDomainConfig`: best-effort certbot delete and
config-file removal (warnings only), then a reload whose failure makes
the operation return `false`. -/
def removeDomainConfig (env : ExtEnv) (domain : String) :
    Bool × List ExtCall :=
  (env.nginxReloadOk,
   [ExtCall.certbotDelete domain, ExtCall.removeConfigFiles domain,
    ExtCall.nginxReload])

/-- Result buckets of `DomainService.renewSSLCertificates`. -/
structure RenewResults where
  successful : List String
  failed : List String
  skipped : List String
deriving Repr, DecidableEq

/-- `DomainService.renewSSLCertificates`: for each domain run
`certbot renew`; "not yet due" → skipped, "Successfully deployed" →
successful, anything else (including a thrown command) → failed. -/
def renewSSLCertificates (env : ExtEnv) : List String → RenewResults × List ExtCall
  | [] => (⟨[], [], []⟩, [])
  | d :: ds =>
    let rest := (renewSSLCertificates env ds).1
    let t := (renewSSLCertificates env ds).2
    let res :=
      match env.renewOutcome d with
      | RenewOutcome.notYetDue => { rest with skipped := d :: rest.skipped }
      | RenewOutcome.deployed => { rest with successful := d :: rest.successful }
      | RenewOutcome.otherOutput => { rest with failed := d :: rest.failed }
      | RenewOutcome.execError => { rest with failed := d :: rest.failed }
    (res, ExtCall.certbotRenew d :: t)

/-- `if (expiryDate) { record.sslExpiry = expiryDate; }`. -/
def updExpiry (old : Option Nat) (queried : Option Nat) : Option Nat :=
  match queried with
  | some e => some e
  | none => old

/-- The virtual `status` field of the Domain schema. -/
def recordStatus (r : DomainRecord) : String :=
  if r.connected && r.ssl then "active"
  else if r.connected && !r.ssl then "connected-no-ssl"
  else if r.dnsVerified && !r.connected then "dns-verified"
  else if r.retryCount ≥ 10 then "failed"
  else "pending"

/-- `domainSchema.methods.markAsConnected`. -/
def markAsConnected (r : DomainRecord) : DomainRecord :=
  { r with connected := true, dnsVerified := true, nginxConfigured := true
         , errorMessage := none }

/-- `domainSchema.methods.markAsDisconnected`. -/
def markAsDisconnected (r : DomainRecord) (errorMessage : Option String) :
    DomainRecord :=
  { r with connected := false, dnsVerified := false, nginxConfigured := false
         , ssl := false, errorMessage := errorMessage
         , retryCount := r.retryCount + 1 }

/-- `Domain.findPendingDomains` filter: not connected and fewer than 10
retries ("Don't retry more than 10 times"). -/
def isPending (r : DomainRecord) : Bool :=
  !r.connected && r.retryCount < 10

/-- Outcome of a route handler. -/
inductive ApiOutcome where
  /-- 400: domain or siteSlug missing. -/
  | badRequest
  /-- 409: domain already exists. -/
  | duplicate
  /-- 500: the record failed schema validation on save. -/
  | invalid
  /-- 404: domain not found. -/
  | notFound
  /-- success with the resulting record snapshot. -/
  | ok (r : DomainRecord)
  /-- renew-ssl route: renewal failed or not needed. -/
  | renewFailed
deriving Repr, DecidableEq

/-- `POST /api/add-domain`: validate presence, normalize, reject a
duplicate, verify DNS, create the record with `connected: dnsVerified`,
then (when DNS verified) run configure → issue-certificate, saving the
record after each step. -/
def addDomain (env : ExtEnv) (store : Store) (now : Nat)
    (domain siteSlug : String) : ApiOutcome × Store × List ExtCall :=
  if domain.data.isEmpty || siteSlug.data.isEmpty then
    (ApiOutcome.badRequest, store, [])
  else
    let nd := normalizeDomain domain
    match findDomain store nd with
    | some _ => (ApiOutcome.duplicate, store, ([] : List ExtCall))
    | none =>
      let dnsVerified := (verifyDNS env nd).1
      let t1 := (verifyDNS env nd).2
      let rec0 : DomainRecord :=
        { domain := nd, siteSlug := siteSlug, dnsVerified := dnsVerified
        , connected := dnsVerified, lastChecked := now, createdAt := now
        , updatedAt := now }
      if !(validDomainString nd && validSiteSlug siteSlug) then
        (ApiOutcome.invalid, store, t1)
      else if dnsVerified then
        let t2 := (createNginxConfig env nd siteSlug).2
        if (createNginxConfig env nd siteSlug).1 then
          let rec1 := { rec0 with nginxConfigured := true }
          let t3 := (issueSSLCertificate env nd).2
          if (issueSSLCertificate env nd).1 then
            let expiry := (getCertificateExpiry env nd).1
            let t4 := (getCertificateExpiry env nd).2
            let rec2 := { rec1 with ssl := true, connected := true
                                  , sslExpiry := updExpiry rec1.sslExpiry expiry }
            (ApiOutcome.ok rec2, store ++ [rec2], t1 ++ t2 ++ t3 ++ t4)
          else
            (ApiOutcome.ok rec1, store ++ [rec1], t1 ++ t2 ++ t3)
        else
          (ApiOutcome.ok rec0, store ++ [rec0], t1 ++ t2)
      else
        (ApiOutcome.ok rec0, store ++ [rec0], t1)

/-- `GET /api/domains/:domain`: normalize and look the record up. -/
def getDomain (store : Store) (domain : String) : Option DomainRecord :=
  findDomain store (normalizeDomain domain)

/-- The record update performed by `POST /api/domains/:domain/verify` on
an existing record: store the fresh DNS result, and when DNS is verified
on a not-yet-connected record run configure → issue-certificate. -/
def verifyRecordStep (env : ExtEnv) (now : Nat) (r : DomainRecord) :
    DomainRecord :=
  let dnsVerified := (verifyDNS env r.domain).1
  let r1 := { r with dnsVerified := dnsVerified, lastChecked := now
                   , updatedAt := now }
  if dnsVerified && !r.connected then
    if (createNginxConfig env r.domain r.siteSlug).1 then
      let r2 := { r1 with nginxConfigured := true }
      if (issueSSLCertificate env r.domain).1 then
        let expiry := (getCertificateExpiry env r.domain).1
        { r2 with ssl := true, connected := true
                , sslExpiry := updExpiry r2.sslExpiry expiry }
      else r2
    else r1
  else r1

/-- `POST /api/domains/:domain/verify`. -/
def verifyDomain (env : ExtEnv) (store : Store) (now : Nat)
    (domain : String) : ApiOutcome × Store :=
  let nd := normalizeDomain domain
  match findDomain store nd with
  | none => (ApiOutcome.notFound, store)
  | some r =>
    let r' := verifyRecordStep env now r
    (ApiOutcome.ok r', updateStore store r')

/-- `DELETE /api/domains/:domain`: on an unknown domain answer 404 with
no side effect; otherwise tear the configuration down and delete the
record. -/
def removeDomain (env : ExtEnv) (store : Store) (domain : String) :
    ApiOutcome × Store × List ExtCall :=
  let nd := normalizeDomain domain
  match findDomain store nd with
  | none => (ApiOutcome.notFound, store, [])
  | some r =>
    (ApiOutcome.ok r, deleteDomain store nd, (removeDomainConfig env nd).2)

/-- `POST /api/domains/:domain/renew-ssl`: renew the one domain; when it
lands in the successful bucket, refresh `sslExpiry` from certbot and
save. -/
def renewCertificate (env : ExtEnv) (store : Store) (now : Nat)
    (domain : String) : ApiOutcome × Store :=
  let nd := normalizeDomain domain
  match findDomain store nd with
  | none => (ApiOutcome.notFound, store)
  | some r =>
    let results := (renewSSLCertificates env [nd]).1
    if nd ∈ results.successful then
      match (getCertificateExpiry env nd).1 with
      | some e =>
        let r1 := { r with sslExpiry := some e, updatedAt := now }
        (ApiOutcome.ok r1, updateStore store r1)
      | none => (ApiOutcome.ok r, store)
    else
      (ApiOutcome.renewFailed, store)

/-- Per-record body of `CronService.checkPendingDomains`: refresh
`lastChecked`, verify DNS, and when DNS is verified on a not-yet-connected
record run configure → issue-certificate.  The cron pass does not store
the DNS result in `dnsVerified` and never touches `retryCount` or
`errorMessage` on a failed step. -/
def cronCheckRecord (env : ExtEnv) (now : Nat) (r : DomainRecord) :
    DomainRecord :=
  let dnsVerified := (verifyDNS env r.domain).1
  let r1 := { r with lastChecked := now, updatedAt := now }
  if dnsVerified && !r.connected then
    if (createNginxConfig env r.domain r.siteSlug).1 then
      let r2 := { r1 with nginxConfigured := true }
      if (issueSSLCertificate env r.domain).1 then
        let expiry := (getCertificateExpiry env r.domain).1
        { r2 with ssl := true, connected := true
                , sslExpiry := updExpiry r2.sslExpiry expiry }
      else r2
    else r1
  else r1

/-- `CronService.checkPendingDomains`: process every pending record
(`connected == false`, `retryCount < 10`) and save it. -/
def checkPendingDomains (env : ExtEnv) (now : Nat) (store : Store) : Store :=
  store.map (fun r => if isPending r then cronCheckRecord env now r else r)

/-- `DomainService.generateNginxConfig`, line by line.  `genTime` is
`new Date().toISOString()` at the moment of the call; `appPort` and
`appRoot` come from the environment configuration. -/
def generateNginxConfigLines (domain siteSlug genTime appPort appRoot : String) :
    List String :=
  let _ := siteSlug
  let serverNames :=
    if isApexDomain domain then domain ++ " www." ++ domain else domain
  [ "# Auto-generated Nginx config for " ++ domain
  , "# Generated at: " ++ genTime
  , ""
  , "server \x7b"
  , "    listen 80;"
  , "    server_name " ++ serverNames ++ ";"
  , "    "
  , "    # Security headers"
  , "    add_header X-Frame-Options \"SAMEORIGIN\" always;"
  , "    add_header X-XSS-Protection \"1; mode=block\" always;"
  , "    add_header X-Content-Type-Options \"nosniff\" always;"
  , "    add_header Referrer-Policy \"no-referrer-when-downgrade\" always;"
  , "    add_header Content-Security-Policy \"default-src 'self' http: https: data: blob: 'unsafe-inline'\" always;"
  , "    "
  , "    # Proxy to Node.js application"
  , "    location / \x7b"
  , "        proxy_pass http://127.0.0.1:" ++ appPort ++ "/;"
  , "        proxy_set_header Host $host;"
  , "        proxy_set_header X-Real-IP $remote_addr;"
  , "        proxy_set_header X-Forwarded-For $proxy_add_x_forwarded_for;"
  , "        proxy_set_header X-Forwarded-Proto $scheme;"
  , "        proxy_set_header X-Forwarded-Host $host;"
  , "        proxy_set_header X-Forwarded-Port $server_port;"
  , "        "
  , "        # Timeout settings"
  , "        proxy_connect_timeout 60s;"
  , "        proxy_send_timeout 60s;"
  , "        proxy_read_timeout 60s;"
  , "        "
  , "        # Buffer settings"
  , "        proxy_buffering on;"
  , "        proxy_buffer_size 4k;"
  , "        proxy_buffers 8 4k;"
  , "        proxy_busy_buffers_size 8k;"
  , "    \x7d"
  , "    "
  , "    # Handle static assets"
  , "    location /cloned-sites/ \x7b"
  , "        alias " ++ appRoot ++ "/cloned_sites/;"
  , "        expires 1y;"
  , "        add_header Cache-Control \"public, immutable\";"
  , "        "
  , "        # Security for static files"
  , "        location ~* \\.(js|css|png|jpg|jpeg|gif|ico|svg)$ \x7b"
  , "            expires 1y;"
  , "            add_header Cache-Control \"public, immutable\";"
  , "        \x7d"
  , "    \x7d"
  , "    "
  , "    # Health check endpoint"
  , "    location /health \x7b"
  , "        access_log off;"
  , "        return 200 \"healthy\\n\";"
  , "        add_header Content-Type text/plain;"
  , "    \x7d"
  , "    "
  , "    # Deny access to sensitive files"
  , "    location ~ /\\. \x7b"
  , "        deny all;"
  , "        access_log off;"
  , "        log_not_found off;"
  , "    \x7d"
  , "    "
  , "    # Deny access to backup files"
  , "    location ~* \\.(bak|backup|old|orig|original|tmp)$ \x7b"
  , "        deny all;"
  , "        access_log off;"
  , "        log_not_found off;"
  , "    \x7d"
  , "\x7d"
  , "" ]

/-- `DomainService.generateNginxConfig` as one text (the template joins
the lines with newlines and ends in a newline). -/
def generateNginxConfig (domain siteSlug genTime appPort appRoot : String) :
    String :=
  String.intercalate "\n"
    (generateNginxConfigLines domain siteSlug genTime appPort appRoot)

/-- `CronService` scheduler state: the `isRunning` flag and the names of
the registered tasks. -/
structure CronState where
  isRunning : Bool
  tasks : List String
deriving Repr, DecidableEq

/-- `new CronService()`. -/
def cronInit : CronState :=
  { isRunning := false, tasks := [] }

/-- `CronService.start`: when already running, log and return without
touching anything; otherwise register and start the four tasks and set
`isRunning`. -/
def cronStart (s : CronState) : CronState :=
  if s.isRunning then s
  else { isRunning := true
       , tasks := ["pendingCheck", "sslCheck", "sslRenewal", "cleanup"] }

/-- `CronService.stop`. -/
def cronStop (s : CronState) : CronState :=
  if !s.isRunning then s
  else { isRunning := false, tasks := [] }

/-- Stores reachable from the empty collection through the request-driven
operations and the pending-reconciliation pass, under arbitrary external
environments and clock readings. -/
inductive Reachable : Store → Prop where
  | init : Reachable []
  | add (env : ExtEnv) (now : Nat) (domain siteSlug : String) {s : Store} :
      Reachable s → Reachable (addDomain env s now domain siteSlug).2.1
  | verify (env : ExtEnv) (now : Nat) (domain : String) {s : Store} :
      Reachable s → Reachable (verifyDomain env s now domain).2
  | cron (env : ExtEnv) (now : Nat) {s : Store} :
      Reachable s → Reachable (checkPendingDomains env now s)
  | remove (env : ExtEnv) (domain : String) {s : Store} :
      Reachable s → Reachable (removeDomain env s domain).2.1
  | renew (env : ExtEnv) (now : Nat) (domain : String) {s : Store} :
      Reachable s → Reachable (renewCertificate env s now domain).2

/-- The record-level invariant `certificateExpiry != null ⇒
certificateIssued`: a non-null `sslExpiry` only together with `ssl`. -/
def sslExpiryInv (r : DomainRecord) : Bool :=
  r.sslExpiry.isNone || r.ssl

/-! Concrete environments used to evaluate the operations. -/

/-- Every external step succeeds; certbot reports expiry 100. -/
def envAllOk : ExtEnv :=
  { dnsOk := fun _ => true, writeOk := true, symlinkOk := true
  , nginxTestOk := true, nginxReloadOk := true
  , certIssueOk := fun _ => true, certExpiry := fun _ => some 100
  , renewOutcome := fun _ => RenewOutcome.deployed }

/-- DNS never resolves to the server; the rest succeeds. -/
def envDnsFail : ExtEnv :=
  { envAllOk with dnsOk := fun _ => false }

/-- DNS resolves but `nginx -t` fails. -/
def envNginxFail : ExtEnv :=
  { envAllOk with nginxTestOk := false }

/-! ### Helper lemmas -/

theorem cronCheckRecord_retry_and_error (env : ExtEnv) (now : Nat)
    (r : DomainRecord) :
    (cronCheckRecord env now r).retryCount = r.retryCount ∧
      (cronCheckRecord env now r).errorMessage = r.errorMessage := by
  simp only [cronCheckRecord]
  split
  · split
    · split <;> simp
    · simp
  · simp

theorem cronCheckRecord_sslExpiryInv (env : ExtEnv) (now : Nat)
    (r : DomainRecord) (h : sslExpiryInv r = true) :
    sslExpiryInv (cronCheckRecord env now r) = true := by
  simp only [cronCheckRecord]
  split
  · split
    · split
      · simp [sslExpiryInv]
      · simpa [sslExpiryInv] using h
    · simpa [sslExpiryInv] using h
  · simpa [sslExpiryInv] using h

theorem verifyRecordStep_sslExpiryInv (env : ExtEnv) (now : Nat)
    (r : DomainRecord) (h : sslExpiryInv r = true) :
    sslExpiryInv (verifyRecordStep env now r) = true := by
  simp only [verifyRecordStep]
  split
  · split
    · split
      · simp [sslExpiryInv]
      · simpa [sslExpiryInv] using h
    · simpa [sslExpiryInv] using h
  · simpa [sslExpiryInv] using h

theorem findDomain_append_self (store : Store) (d : String) (r : DomainRecord)
    (h : findDomain store d = none) (hr : r.domain = d) :
    findDomain (store ++ [r]) d = some r := by
  induction store with
  | nil => simp [findDomain, List.find?, hr]
  | cons x xs ih =>
    simp only [findDomain, List.cons_append, List.find?] at h ⊢
    cases hx : (x.domain == d) with
    | true => simp [hx] at h
    | false =>
      simp only [hx] at h ⊢
      exact ih h

theorem perm_cons_middle {α : Type} (a : α) (l₁ l₂ l₃ r : List α)
    (h : (l₁ ++ l₂ ++ l₃).Perm r) :
    (l₁ ++ (a :: l₂) ++ l₃).Perm (a :: r) := by
  have e : l₁ ++ (a :: l₂) ++ l₃ = l₁ ++ a :: (l₂ ++ l₃) := by simp
  rw [e]
  refine List.perm_middle.trans (List.Perm.cons a ?_)
  simpa using h

theorem perm_cons_last {α : Type} (a : α) (l₁ l₂ l₃ r : List α)
    (h : (l₁ ++ l₂ ++ l₃).Perm r) :
    (l₁ ++ l₂ ++ (a :: l₃)).Perm (a :: r) :=
  List.perm_middle.trans (List.Perm.cons a h)

/-! ### Claim theorems -/

/-- C1 (counterexample): the store reached by a single `addDomain` under an
environment where DNS verifies but the nginx test fails holds a record with
`connected = true`, `dnsVerified = true`, `nginxConfigured = false` and
`ssl = false` — `connected` is persisted at record creation as the bare DNS
result, so `connected ⇒ dnsVerified ∧ nginxConfigured ∧ ssl` fails. -/
def storeNginxFail : Store :=
  (addDomain envNginxFail [] 0 "example.com" "site-1").2.1

theorem connected_invariant_fails_at_addDomain :
    Reachable storeNginxFail ∧
      storeNginxFail.map
          (fun r => (r.connected, r.dnsVerified, r.nginxConfigured, r.ssl)) =
        [(true, true, false, false)] :=
  ⟨Reachable.add envNginxFail 0 "example.com" "site-1" Reachable.init,
   by decide⟩

/-- C1 (amended): when an operation on an existing record (the manual verify
route or the pending-reconciliation pass) flips `connected` from false to
true, the record's `nginxConfigured` and `ssl` flags are both true
afterwards; the original invariant `connected ⇒ dnsVerified ∧
nginxConfigured ∧ ssl` does not hold because `addDomain` creates the record
with `connected` equal to the DNS result alone. -/
theorem connected_flip_sets_nginx_and_ssl (env : ExtEnv) (now : Nat)
    (r : DomainRecord) (h : r.connected = false) :
    ((cronCheckRecord env now r).connected = true →
      (cronCheckRecord env now r).nginxConfigured = true ∧
        (cronCheckRecord env now r).ssl = true) ∧
    ((verifyRecordStep env now r).connected = true →
      (verifyRecordStep env now r).nginxConfigured = true ∧
        (verifyRecordStep env now r).ssl = true) := by
  constructor
  · simp only [cronCheckRecord]
    split
    · split
      · split
        · simp
        · simp [h]
      · simp [h]
    · simp [h]
  · simp only [verifyRecordStep]
    split
    · split
      · split
        · simp
        · simp [h]
      · simp [h]
    · simp [h]

theorem connected_flip_sets_nginx_and_ssl_witness :
    (((cronCheckRecord envAllOk 1
          { domain := "example.com", siteSlug := "site-1" }).connected = true →
        (cronCheckRecord envAllOk 1
          { domain := "example.com", siteSlug := "site-1" }).nginxConfigured = true ∧
        (cronCheckRecord envAllOk 1
          { domain := "example.com", siteSlug := "site-1" }).ssl = true) ∧
      ((verifyRecordStep envAllOk 1
          { domain := "example.com", siteSlug := "site-1" }).connected = true →
        (verifyRecordStep envAllOk 1
          { domain := "example.com", siteSlug := "site-1" }).nginxConfigured = true ∧
        (verifyRecordStep envAllOk 1
          { domain := "example.com", siteSlug := "site-1" }).ssl = true)) :=
  connected_flip_sets_nginx_and_ssl envAllOk 1
    { domain := "example.com", siteSlug := "site-1" } rfl

/-- C2 (code bug): the pending-reconciliation pass never touches
`retryCount` or `errorMessage` — `markAsDisconnected`, the model method
meant to record a failed attempt, is never invoked by it.  Concretely, for
`broken.test` whose DNS never resolves, after three passes the record still
has `retryCount = 0`, no error message, `connected = false` and derived
status `pending`, where the spec requires `retryCount` 1, 2, 3. -/
def storeBroken1 : Store :=
  (addDomain envDnsFail [] 0 "broken.test" "site-1").2.1

def storeBroken2 : Store := checkPendingDomains envDnsFail 1 storeBroken1

def storeBroken3 : Store := checkPendingDomains envDnsFail 2 storeBroken2

def storeBroken4 : Store := checkPendingDomains envDnsFail 3 storeBroken3

theorem pending_pass_never_updates_retryCount :
    (∀ env : ExtEnv, ∀ now : Nat, ∀ r : DomainRecord,
      (cronCheckRecord env now r).retryCount = r.retryCount ∧
        (cronCheckRecord env now r).errorMessage = r.errorMessage) ∧
      [storeBroken2, storeBroken3, storeBroken4].map (fun s =>
          s.map (fun r =>
            (r.retryCount, r.errorMessage, r.connected, recordStatus r))) =
        [[(0, none, false, "pending")], [(0, none, false, "pending")],
          [(0, none, false, "pending")]] :=
  ⟨fun env now r => cronCheckRecord_retry_and_error env now r, by decide⟩

/-- C3: adding a domain whose normalized form already has a record answers
the duplicate error and leaves the store untouched, with no external call. -/
theorem addDomain_duplicate_unchanged (env : ExtEnv) (store : Store)
    (now : Nat) (domain siteSlug : String) (r : DomainRecord)
    (hd : domain.data.isEmpty = false) (ht : siteSlug.data.isEmpty = false)
    (hfind : findDomain store (normalizeDomain domain) = some r) :
    addDomain env store now domain siteSlug =
      (ApiOutcome.duplicate, store, []) := by
  simp [addDomain, hd, ht, hfind]

theorem addDomain_duplicate_unchanged_witness :
    addDomain envAllOk [{ domain := "example.com", siteSlug := "site-1" }] 7
        "Example.com" "other" =
      (ApiOutcome.duplicate,
       [{ domain := "example.com", siteSlug := "site-1" }], []) :=
  addDomain_duplicate_unchanged envAllOk _ 7 "Example.com" "other"
    { domain := "example.com", siteSlug := "site-1" }
    (by decide) (by decide) (by decide)

/-- C4: on a fresh valid domain, `addDomain` then `getDomain` returns a
record whose `domain` field is the normalized (lowercased, `www.`-stripped)
input. -/
theorem addDomain_then_getDomain (env : ExtEnv) (store : Store) (now : Nat)
    (domain siteSlug : String)
    (hd : domain.data.isEmpty = false) (ht : siteSlug.data.isEmpty = false)
    (hnone : findDomain store (normalizeDomain domain) = none)
    (hvd : validDomainString (normalizeDomain domain) = true)
    (hvs : validSiteSlug siteSlug = true) :
    ∃ r, getDomain (addDomain env store now domain siteSlug).2.1 domain =
        some r ∧ r.domain = normalizeDomain domain := by
  simp only [addDomain, hd, ht, hnone, hvd, hvs, getDomain]
  simp only [Bool.or_self, Bool.and_self, Bool.not_true, Bool.false_eq_true,
    if_false]
  split
  · split
    · split
      · exact ⟨_, findDomain_append_self store _ _ hnone rfl, rfl⟩
      · exact ⟨_, findDomain_append_self store _ _ hnone rfl, rfl⟩
    · exact ⟨_, findDomain_append_self store _ _ hnone rfl, rfl⟩
  · exact ⟨_, findDomain_append_self store _ _ hnone rfl, rfl⟩

theorem addDomain_then_getDomain_witness :
    ∃ r, getDomain (addDomain envAllOk [] 0 "Example.com" "site-1").2.1
        "Example.com" = some r ∧ r.domain = normalizeDomain "Example.com" :=
  addDomain_then_getDomain envAllOk [] 0 "Example.com" "site-1"
    (by decide) (by decide) (by decide) (by decide) (by decide)

/-- C5 (counterexample): reach a record with `ssl = false` (DNS never
verified), then call the manual renew route under an environment where
certbot renews and reports expiry 100: the record ends with
`sslExpiry = some 100` while `ssl = false`, violating
`certificateExpiry ≠ null ⇒ certificateIssued`. -/
def storePendingSsl : Store :=
  (addDomain envDnsFail [] 0 "pending.test" "site-1").2.1

def storeRenewedNoSsl : Store :=
  (renewCertificate envDnsFail storePendingSsl 5 "pending.test").2

theorem sslExpiry_invariant_fails_at_renew :
    Reachable storeRenewedNoSsl ∧
      storeRenewedNoSsl.map (fun r => (r.ssl, r.sslExpiry)) =
        [(false, some 100)] :=
  ⟨Reachable.renew envDnsFail 5 "pending.test"
      (Reachable.add envDnsFail 0 "pending.test" "site-1" Reachable.init),
   by decide⟩

/-- C5 (amended): the invariant `sslExpiry ≠ null ⇒ ssl` is preserved by
`addDomain`, `verifyDomain`, the pending-reconciliation pass and
`removeDomain`; `renewCertificate` preserves it only on certificate-bearing
records, because on renewal success it stores the queried expiry without
checking or setting the `ssl` flag. -/
theorem sslExpiry_inv_preserved (env : ExtEnv) (store : Store) (now : Nat)
    (domain siteSlug : String)
    (h : ∀ r ∈ store, sslExpiryInv r = true) :
    (∀ r ∈ (addDomain env store now domain siteSlug).2.1,
      sslExpiryInv r = true) ∧
    (∀ r ∈ (verifyDomain env store now domain).2, sslExpiryInv r = true) ∧
    (∀ r ∈ checkPendingDomains env now store, sslExpiryInv r = true) ∧
    (∀ r ∈ (removeDomain env store domain).2.1, sslExpiryInv r = true) ∧
    ((∀ r ∈ store, r.ssl = true) →
      ∀ r ∈ (renewCertificate env store now domain).2,
        sslExpiryInv r = true) := by
  refine ⟨?_, ?_, ?_, ?_, ?_⟩
  · simp only [addDomain]
    split
    · exact h
    · split
      · exact h
      · split
        · exact h
        · split
          · split
            · split
              · intro r hr
                rcases List.mem_append.mp hr with hm | hm
                · exact h r hm
                · simp only [List.mem_singleton] at hm
                  subst hm; simp [sslExpiryInv]
              · intro r hr
                rcases List.mem_append.mp hr with hm | hm
                · exact h r hm
                · simp only [List.mem_singleton] at hm
                  subst hm; simp [sslExpiryInv]
            · intro r hr
              rcases List.mem_append.mp hr with hm | hm
              · exact h r hm
              · simp only [List.mem_singleton] at hm
                subst hm; simp [sslExpiryInv]
          · intro r hr
            rcases List.mem_append.mp hr with hm | hm
            · exact h r hm
            · simp only [List.mem_singleton] at hm
              subst hm; simp [sslExpiryInv]
  · simp only [verifyDomain]
    split
    · exact h
    · next rec hrec =>
      intro r hr
      rcases List.mem_map.mp hr with ⟨x, hx, hfx⟩
      by_cases hdom : (x.domain == (verifyRecordStep env now rec).domain) = true
      · rw [← hfx]; simp only [updateStore] at *
        simp only [hdom, if_true]
        exact verifyRecordStep_sslExpiryInv env now rec
          (h rec (List.mem_of_find?_eq_some hrec))
      · rw [← hfx]
        simp only [Bool.not_eq_true] at hdom
        simp only [hdom, Bool.false_eq_true, if_false]
        exact h x hx
  · intro r hr
    rcases List.mem_map.mp hr with ⟨x, hx, hfx⟩
    rw [← hfx]
    by_cases hp : isPending x = true
    · simp only [hp, if_true]
      exact cronCheckRecord_sslExpiryInv env now x (h x hx)
    · simp only [Bool.not_eq_true] at hp
      simp only [hp, Bool.false_eq_true, if_false]
      exact h x hx
  · simp only [removeDomain]
    split
    · exact h
    · intro r hr
      exact h r (List.mem_of_mem_filter hr)
  · intro hssl
    simp only [renewCertificate]
    split
    · exact fun r hr => h r hr
    · next rec hrec =>
      split
      · split
        · intro r hr
          rcases List.mem_map.mp hr with ⟨x, hx, hfx⟩
          rw [← hfx]
          split
          · simp [sslExpiryInv, hssl rec (List.mem_of_find?_eq_some hrec)]
          · exact h x hx
        · exact fun r hr => h r hr
      · exact fun r hr => h r hr

theorem sslExpiry_inv_preserved_witness :
    (∀ r ∈ (addDomain envAllOk
        [{ domain := "live.com", siteSlug := "s1", ssl := true }] 2
        "fresh.com" "s2").2.1, sslExpiryInv r = true) ∧
    (∀ r ∈ (verifyDomain envAllOk
        [{ domain := "live.com", siteSlug := "s1", ssl := true }] 2
        "fresh.com").2, sslExpiryInv r = true) ∧
    (∀ r ∈ checkPendingDomains envAllOk 2
        [{ domain := "live.com", siteSlug := "s1", ssl := true }],
      sslExpiryInv r = true) ∧
    (∀ r ∈ (removeDomain envAllOk
        [{ domain := "live.com", siteSlug := "s1", ssl := true }]
        "fresh.com").2.1, sslExpiryInv r = true) ∧
    ((∀ r ∈ ([{ domain := "live.com", siteSlug := "s1", ssl := true }] : Store),
        r.ssl = true) →
      ∀ r ∈ (renewCertificate envAllOk
          [{ domain := "live.com", siteSlug := "s1", ssl := true }] 2
          "fresh.com").2, sslExpiryInv r = true) :=
  sslExpiry_inv_preserved envAllOk
    [{ domain := "live.com", siteSlug := "s1", ssl := true }] 2
    "fresh.com" "s2" (by decide)

/-- C6: the renewal batch places every input domain in exactly one of the
three buckets — their concatenation is a permutation of the input list, so
nothing is omitted, nothing duplicated, and a failure on one domain never
stops the rest from being processed. -/
theorem renewBatch_partitions_input (env : ExtEnv) (domains : List String) :
    ((renewSSLCertificates env domains).1.successful ++
      (renewSSLCertificates env domains).1.skipped ++
      (renewSSLCertificates env domains).1.failed).Perm domains := by
  induction domains with
  | nil => simp [renewSSLCertificates]
  | cons d ds ih =>
    simp only [renewSSLCertificates]
    cases hout : env.renewOutcome d <;> simp only [hout]
    case notYetDue => exact perm_cons_middle d _ _ _ _ ih
    case deployed => simpa using List.Perm.cons d ih
    case otherOutput => exact perm_cons_last d _ _ _ _ ih
    case execError => exact perm_cons_last d _ _ _ _ ih

/-- C7: whenever the whole-configuration nginx test fails, the configure
operation reports failure and the reload call is never among the external
calls it performed. -/
theorem no_reload_when_nginx_test_fails (env : ExtEnv)
    (domain siteSlug : String) (h : env.nginxTestOk = false) :
    (createNginxConfig env domain siteSlug).1 = false ∧
      ExtCall.nginxReload ∉ (createNginxConfig env domain siteSlug).2 := by
  cases hw : env.writeOk <;> cases hs : env.symlinkOk <;>
    simp [createNginxConfig, h, hw, hs]

theorem no_reload_when_nginx_test_fails_witness :
    (createNginxConfig envNginxFail "example.com" "site-1").1 = false ∧
      ExtCall.nginxReload ∉
        (createNginxConfig envNginxFail "example.com" "site-1").2 :=
  no_reload_when_nginx_test_fails envNginxFail "example.com" "site-1" rfl

/-- C8: removing a domain with no record answers the not-found error,
leaves the store exactly as it was and performs no external call. -/
theorem removeDomain_missing_no_effects (env : ExtEnv) (store : Store)
    (domain : String)
    (h : findDomain store (normalizeDomain domain) = none) :
    removeDomain env store domain = (ApiOutcome.notFound, store, []) := by
  simp [removeDomain, h]

theorem removeDomain_missing_no_effects_witness :
    removeDomain envAllOk [{ domain := "example.com", siteSlug := "site-1" }]
        "missing.test" =
      (ApiOutcome.notFound,
       [{ domain := "example.com", siteSlug := "site-1" }], []) :=
  removeDomain_missing_no_effects envAllOk
    [{ domain := "example.com", siteSlug := "site-1" }] "missing.test"
    (by decide)

set_option maxRecDepth 20000 in
/-- C9 (counterexample): the generated configuration embeds the generation
timestamp, so two invocations of the generator for the same domain, slug
and configuration at different clock readings produce different text. -/
theorem nginx_config_differs_across_times :
    generateNginxConfig "example.com" "site-1" "2024-01-01T00:00:00.000Z"
        "3000" "/app" ≠
      generateNginxConfig "example.com" "site-1" "2024-01-02T00:00:00.000Z"
        "3000" "/app" := by
  decide

/-- C9 (amended): the generator is deterministic given the clock reading —
two invocations at the same reading agree, while any two readings agree on
everything except the generated-at comment line (line index 1, which is
exactly that comment) — and for every domain, slug and configuration the
text contains the security headers, the proxy rule with
forwarded-host/proto headers, the static-asset alias, the health-check
path and the deny rules for dotfiles and backup extensions. -/
theorem nginx_config_deterministic_given_time
    (domain siteSlug t1 t2 port root : String) :
    (t1 = t2 →
        generateNginxConfig domain siteSlug t1 port root =
          generateNginxConfig domain siteSlug t2 port root) ∧
      (generateNginxConfigLines domain siteSlug t1 port root).eraseIdx 1 =
        (generateNginxConfigLines domain siteSlug t2 port root).eraseIdx 1 ∧
      (generateNginxConfigLines domain siteSlug t1 port root).get? 1 =
        some ("# Generated at: " ++ t1) ∧
      "    add_header X-Frame-Options \"SAMEORIGIN\" always;" ∈
        generateNginxConfigLines domain siteSlug t1 port root ∧
      "    add_header X-Content-Type-Options \"nosniff\" always;" ∈
        generateNginxConfigLines domain siteSlug t1 port root ∧
      ("        proxy_pass http://127.0.0.1:" ++ port ++ "/;") ∈
        generateNginxConfigLines domain siteSlug t1 port root ∧
      "        proxy_set_header X-Forwarded-Host $host;" ∈
        generateNginxConfigLines domain siteSlug t1 port root ∧
      "        proxy_set_header X-Forwarded-Proto $scheme;" ∈
        generateNginxConfigLines domain siteSlug t1 port root ∧
      ("        alias " ++ root ++ "/cloned_sites/;") ∈
        generateNginxConfigLines domain siteSlug t1 port root ∧
      "    location /health \x7b" ∈
        generateNginxConfigLines domain siteSlug t1 port root ∧
      "    location ~ /\\. \x7b" ∈
        generateNginxConfigLines domain siteSlug t1 port root ∧
      "    location ~* \\.(bak|backup|old|orig|original|tmp)$ \x7b" ∈
        generateNginxConfigLines domain siteSlug t1 port root := by
  refine ⟨fun h => by rw [h], ?_, ?_, ?_, ?_, ?_, ?_, ?_, ?_, ?_, ?_, ?_⟩ <;>
    simp [generateNginxConfigLines]

theorem nginx_config_deterministic_given_time_witness :
    ("2024-01-01T00:00:00.000Z" = "2024-01-02T00:00:00.000Z" →
        generateNginxConfig "example.com" "site-1" "2024-01-01T00:00:00.000Z"
            "3000" "/app" =
          generateNginxConfig "example.com" "site-1" "2024-01-02T00:00:00.000Z"
            "3000" "/app") ∧
      (generateNginxConfigLines "example.com" "site-1"
          "2024-01-01T00:00:00.000Z" "3000" "/app").eraseIdx 1 =
        (generateNginxConfigLines "example.com" "site-1"
          "2024-01-02T00:00:00.000Z" "3000" "/app").eraseIdx 1 ∧
      (generateNginxConfigLines "example.com" "site-1"
          "2024-01-01T00:00:00.000Z" "3000" "/app").get? 1 =
        some ("# Generated at: " ++ "2024-01-01T00:00:00.000Z") ∧
      "    add_header X-Frame-Options \"SAMEORIGIN\" always;" ∈
        generateNginxConfigLines "example.com" "site-1"
          "2024-01-01T00:00:00.000Z" "3000" "/app" ∧
      "    add_header X-Content-Type-Options \"nosniff\" always;" ∈
        generateNginxConfigLines "example.com" "site-1"
          "2024-01-01T00:00:00.000Z" "3000" "/app" ∧
      ("        proxy_pass http://127.0.0.1:" ++ "3000" ++ "/;") ∈
        generateNginxConfigLines "example.com" "site-1"
          "2024-01-01T00:00:00.000Z" "3000" "/app" ∧
      "        proxy_set_header X-Forwarded-Host $host;" ∈
        generateNginxConfigLines "example.com" "site-1"
          "2024-01-01T00:00:00.000Z" "3000" "/app" ∧
      "        proxy_set_header X-Forwarded-Proto $scheme;" ∈
        generateNginxConfigLines "example.com" "site-1"
          "2024-01-01T00:00:00.000Z" "3000" "/app" ∧
      ("        alias " ++ "/app" ++ "/cloned_sites/;") ∈
        generateNginxConfigLines "example.com" "site-1"
          "2024-01-01T00:00:00.000Z" "3000" "/app" ∧
      "    location /health \x7b" ∈
        generateNginxConfigLines "example.com" "site-1"
          "2024-01-01T00:00:00.000Z" "3000" "/app" ∧
      "    location ~ /\\. \x7b" ∈
        generateNginxConfigLines "example.com" "site-1"
          "2024-01-01T00:00:00.000Z" "3000" "/app" ∧
      "    location ~* \\.(bak|backup|old|orig|original|tmp)$ \x7b" ∈
        generateNginxConfigLines "example.com" "site-1"
          "2024-01-01T00:00:00.000Z" "3000" "/app" :=
  nginx_config_deterministic_given_time "example.com" "site-1"
    "2024-01-01T00:00:00.000Z" "2024-01-02T00:00:00.000Z" "3000" "/app"

/-- C10: starting the scheduler while it is already running changes
nothing — neither the task set nor the `isRunning` flag. -/
theorem cronStart_idempotent_when_running (s : CronState)
    (h : s.isRunning = true) : cronStart s = s := by
  simp [cronStart, h]

theorem cronStart_idempotent_when_running_witness :
    cronStart { isRunning := true
              , tasks := ["pendingCheck", "sslCheck", "sslRenewal", "cleanup"] } =
      { isRunning := true
      , tasks := ["pendingCheck", "sslCheck", "sslRenewal", "cleanup"] } :=
  cronStart_idempotent_when_running _ rfl

end SiteReplicator
